import Mathlib

/-!
Verification of the code-generation engine of `aind-pydantic-codegen`.

The definitions below are a shallow embedding of
`src/aind_pydantic_codegen/generators.py` (plus the validator/formatter
interfaces of `validators.py` / `formatters.py`).  The repository module
`helpers.py` is not part of the sources available here; every definition
taken from it is marked `Modelled from the spec:` and follows the words of
the specification (sections 4.1 and 6).

Python conventions are rendered as follows: `Dict[str, str]` becomes an
association list with unique keys, exceptions become `Except String`,
`Optional` becomes `Option`, and mutable object state is passed explicitly.
-/

/-! ## Name Normalizer (helpers.py is absent from src/, modelled from the spec)

The embedding implements its string utilities by structural recursion over
`List Char` (rather than through the well-founded-recursion helpers of the
core library) so that every theorem about a concrete record can be settled by
kernel evaluation. -/

/-- Split a character list at every character satisfying `p`; consecutive
separators yield empty segments (the behavior of the Python `split` and of
`String.split`). -/
def splitOnP (p : Char → Bool) (l : List Char) : List (List Char) :=
  go [] l
where
  go (acc : List Char) : List Char → List (List Char)
    | [] => [acc.reverse]
    | x :: xs => if p x then acc.reverse :: go [] xs else go (x :: acc) xs

/-- The lines of a string (split at newline characters). -/
def splitLines (s : String) : List String :=
  (splitOnP (fun c => c = '\n') s.toList).map String.mk

/-- Join strings with a separator between consecutive elements. -/
def joinSep (sep : String) : List String → String
  | [] => ""
  | [x] => x
  | x :: xs => x ++ sep ++ joinSep sep xs

/-- Modelled from the spec: `helpers.indent_line` prepends `n` tab characters.
The source fails for negative `n`; the `Nat` domain covers the non-negative
cases the engine uses. -/
def indent_line (s : String) (n : Nat) : String :=
  String.mk (List.replicate n '\t') ++ s

/-- Modelled from the spec: `helpers.indent_block` applies indentation to every
line of a multi-line string and guarantees a trailing newline. -/
def indent_block (text : String) (n : Nat) : String :=
  String.join ((splitLines text).map (fun l => indent_line l n ++ "\n"))

/-- Number of leading whitespace characters (spaces or tabs) of a line. -/
def leadingWsCount (l : String) : Nat :=
  (l.toList.takeWhile (fun c => c = ' ' ∨ c = '\t')).length

/-- Modelled from the spec: `helpers.unindent` strips the minimum common
leading-whitespace run length across non-empty lines (lines containing a
non-whitespace character). -/
def unindent (text : String) : String :=
  let lines := splitLines text
  let nonEmpty := lines.filter (fun l => l.toList.any (fun c => !c.isWhitespace))
  match nonEmpty.map leadingWsCount with
  | [] => text
  | c :: cs =>
    let m := cs.foldl Nat.min c
    joinSep "\n" (lines.map (fun l => String.mk (l.toList.drop m)))

/-- Modelled from the spec: `helpers.replace_tabs_with_spaces` maps each tab to
4 spaces. -/
def replace_tabs_with_spaces (s : String) : String :=
  String.join (s.toList.map (fun c => if c = '\t' then "    " else String.mk [c]))

/-- True when the first character of `s` is a digit. -/
def headIsDigit (s : String) : Bool :=
  match s.toList with
  | [] => false
  | c :: _ => c.isDigit

/-- True when the first character of `s` is an uppercase letter. -/
def headIsUpper (s : String) : Bool :=
  match s.toList with
  | [] => false
  | c :: _ => c.isUpper

/-- Uppercase the first character of a segment and lowercase the rest (the
re-casing quirk the spec asks to preserve). -/
def capitalizeSegment (s : String) : String :=
  match s.toList with
  | [] => ""
  | c :: rest => String.mk (c.toUpper :: rest.map Char.toLower)

/-- Modelled from the spec: `helpers.sanitize_class_name` normalizes separators
(space, hyphen, underscore) into segment boundaries, PascalCases the result and
prefixes an underscore when the result would begin with a digit. -/
def sanitize_class_name (s : String) : String :=
  let segments := (splitOnP (fun c => c = ' ' ∨ c = '-' ∨ c = '_') s.toList).map String.mk
  let pascal := String.join (segments.map capitalizeSegment)
  if headIsDigit pascal then "_" ++ pascal else pascal

/-- True when the first character of `s` is an underscore. -/
def headIsUnderscore (s : String) : Bool :=
  match s.toList with
  | [] => false
  | c :: _ => c = '_'

/-- Modelled from the spec: `helpers.is_pascal_case` is true iff the string is
non-empty, begins with an uppercase letter and contains no separators. -/
def is_pascal_case (s : String) : Bool :=
  headIsUpper s && !(s.toList.any (fun c => c = ' ' ∨ c = '-' ∨ c = '_'))

/-- Separator replacement, uppercasing and underscore prefixing used by
`create_enum_key_from_class_name` on non-empty input.  The repository tests
keep case boundaries untouched (`MyClassName` becomes `MYCLASSNAME`). -/
def enumKeyCore (s : String) : String :=
  let replaced := s.toList.map (fun c => if c = ' ' ∨ c = '-' ∨ c = '_' then '_' else c)
  let upper := String.mk (replaced.map Char.toUpper)
  let withDigit := if headIsDigit s then "_" ++ upper else upper
  if headIsUnderscore s then "_" ++ withDigit else withDigit

/-- Modelled from the spec: `helpers.create_enum_key_from_class_name`
uppercases, converts separators to underscores, prefixes an underscore when
the first character is a digit, doubles a leading underscore, and fails with
an empty-input error when the input is empty. -/
def create_enum_key_from_class_name (s : String) : Except String String :=
  if s == "" then Except.error "Class name cannot be empty"
  else Except.ok (enumKeyCore s)

/-- Modelled from the spec: `helpers.normalize_model_source_provenance` returns
the display string of the source identifier verbatim (sources are strings in
this embedding). -/
def normalize_model_source_provenance (source : String) : String :=
  source

/-! ## Parsed records -/

/-- `ParsedSource = Dict[str, str]`: one flat record, keys unique, insertion
ordered. -/
abbrev ParsedSource := List (String × String)

/-- Dictionary lookup (`parsed_source[key]` / `.get(key)`). -/
def psLookup (src : ParsedSource) (k : String) : Option String :=
  (src.find? (fun p => p.1 == k)).map Prod.snd

/-- Dictionary membership (`key in parsed_source`). -/
def psContains (src : ParsedSource) (k : String) : Bool :=
  (psLookup src k).isSome

/-! ## Forward references and type descriptors -/

/-- `ForwardClassReference`: a record storing a forward reference to a class. -/
structure ForwardClassReference where
  module_name : String
  class_name : String
deriving DecidableEq

/-- The `Type | ForwardClassReference` union accepted by `solve_import` and
`MappableReferenceField`: a concrete type carries the introspected
`__module__` and `__name__`; the second case is an explicit forward
reference. -/
inductive TypeOrRef where
  | typeDescr (module_name : String) (class_name : String)
  | forwardRef (ref : ForwardClassReference)
deriving DecidableEq

/-- Extraction of `(module_name, class_name)` performed at the top of
`ModelGenerator.solve_import`. -/
def TypeOrRef.moduleAndClass : TypeOrRef → String × String
  | .typeDescr m c => (m, c)
  | .forwardRef r => (r.module_name, r.class_name)

/-! ## Mapping rules -/

/-- `ParsedSourceKeyHandler`: names a key to read from a record plus an
optional transform of the raw string value. -/
structure ParsedSourceKeyHandler where
  field : String
  function_handle : Option (String → String) := none

/-- An element of the `Union[List[str], List[ParsedSourceKeyHandler]]`
constructor argument; the source inspects each element with `isinstance`, so
mixed lists are representable. -/
inductive HandlerInput where
  | str (s : String)
  | handler (h : ParsedSourceKeyHandler)

/-- `MappableReferenceField._normalize_parsed_source_keys`: converts the
constructor argument to a uniform list.  The source `break`s out of the loop
right after appending a plain string, so everything after the first string
element is dropped. -/
def _normalize_parsed_source_keys : Option (List HandlerInput) → List ParsedSourceKeyHandler
  | none => []
  | some hs => go hs
where
  go : List HandlerInput → List ParsedSourceKeyHandler
    | [] => []
    | .str s :: _ => [{ field := s }]
    | .handler h :: rest => h :: go rest

/-- A positional format pattern: literal chunks interleaved with `pos i`
placeholders, standing for a Python format string such as a pattern with
positional replacement fields. -/
inductive FormatPatternItem where
  | lit (s : String)
  | pos (i : Nat)

abbrev FormatPattern := List FormatPatternItem

/-- `pattern.format(*args)`: positional substitution; an index beyond the
argument list raises, as in Python. -/
def formatPattern : FormatPattern → List String → Except String String
  | [], _ => Except.ok ""
  | .lit s :: rest, args => (formatPattern rest args).map (fun r => s ++ r)
  | .pos i :: rest, args =>
    match args[i]? with
    | none => Except.error "Replacement index out of range"
    | some v => (formatPattern rest args).map (fun r => v ++ r)

/-- `MappableReferenceField`: a reference that can be mapped to a class. -/
structure MappableReferenceField where
  typeof : TypeOrRef
  pattern : FormatPattern
  field_name : String
  parsed_source_keys_handlers : List ParsedSourceKeyHandler

/-- The `MappableReferenceField` constructor: stores the pattern and field
name and normalizes the handler list. -/
def MappableReferenceField.create (typeof : TypeOrRef) (pattern : FormatPattern)
    (field_name : String)
    (parsed_source_keys_handlers : Option (List HandlerInput)) : MappableReferenceField :=
  { typeof := typeof
    pattern := pattern
    field_name := field_name
    parsed_source_keys_handlers := _normalize_parsed_source_keys parsed_source_keys_handlers }

/-- The `parsed_source_keys` property: the key of each handler, in order. -/
def MappableReferenceField.parsed_source_keys (m : MappableReferenceField) : List String :=
  m.parsed_source_keys_handlers.map (fun h => h.field)

/-- `MappableReferenceField.__call__`.  The first loop checks every source key
for membership; the second loop builds the substitution arguments reading
`parsed_source[key]`, where `key` is the first loop's variable and therefore
still holds the LAST source key for every handler. -/
def MappableReferenceField.call (m : MappableReferenceField)
    (parsed_source : ParsedSource) : Except String String :=
  match m.parsed_source_keys.find? (fun key => !(psContains parsed_source key)) with
  | some key => Except.error ("Key not found in source data: " ++ key)
  | none =>
    match m.parsed_source_keys.getLast? with
    | none => formatPattern m.pattern []
    | some lastKey =>
      match psLookup parsed_source lastKey with
      | none => Except.error ("Key not found in source data: " ++ lastKey)
      | some v =>
        formatPattern m.pattern
          (m.parsed_source_keys_handlers.map (fun h =>
            match h.function_handle with
            | some f => f v
            | none => v))

/-! ## Seed models and the text-formatting backend -/

/-- The information the engine reads off the seed pydantic model class:
`__name__`, `__module__`, `model_fields` (field name paired with the declared
annotation name, in declaration order) and the attribute names visible through
`hasattr`. -/
structure SeedModel where
  name : String
  module : String
  model_fields : List (String × String)
  attrs : List String

/-- `MappableReferenceField.has_mappable_field`: `hasattr(obj, field_name)`
applied to the seed model class. -/
def MappableReferenceField.has_mappable_field (m : MappableReferenceField)
    (seed : SeedModel) : Bool :=
  seed.attrs.contains m.field_name

/-- The text-formatting backend interface (`helpers.TemplateHelper`), exactly
the operations `generators.py` invokes on its `builder` arguments. -/
structure TemplateHelper where
  import_statement : String → String → String
  class_header : String → Option String → String
  literal_field : String → String → String
  model_enum_entry : String → String → String
  type_all_from_subclasses : String → String
  type_one_of : String → String → String
  abbreviation_map : String
  file_header : String → String
  import_statements : String
  indent : String → Nat → String

/-- Modelled from the spec: a concrete backend instance standing in for the
class-level `TemplateHelper()` of `generators.py` (`helpers.py` is not in
src/).  Renderings follow sections 6 and 8 of the spec; `indent` is the
block-indentation helper. -/
def specHelper : TemplateHelper :=
  { import_statement := fun m c => "from " ++ m ++ " import " ++ c ++ "\n"
    class_header := fun name parent =>
      "class " ++ name ++ (match parent with
        | some p => "(" ++ p ++ "):"
        | none => ":")
    literal_field := fun n v => n ++ " = " ++ v
    model_enum_entry := fun k v => k ++ " = " ++ v
    type_all_from_subclasses := fun p => "ALL = tuple(" ++ p ++ ".__subclasses__())"
    type_one_of := fun p d =>
      "ONE_OF = Annotated[Union[tuple(" ++ p ++ ".__subclasses__())], Field(discriminator=\"" ++ d ++ "\")]"
    abbreviation_map := "abbreviation_map = dict()"
    file_header := fun prov => "# generated from " ++ prov ++ "\n"
    import_statements := "from typing import Annotated, Literal, Union\n"
    indent := indent_block }

/-! ## Import resolution -/

/-- `ModelGenerator.solve_import`: empty string for builtins, substitution of
the default module name for the entry script (failing when none is supplied),
otherwise the rendered import statement. -/
def solve_import (builder : TemplateHelper) (typeof : TypeOrRef)
    (default_module_name : Option String) : Except String String :=
  let mc := typeof.moduleAndClass
  let module_name := mc.1
  let class_name := mc.2
  if module_name = "builtins" then Except.ok ""
  else if module_name = "__main__" then
    match default_module_name with
    | none =>
      Except.error "Module name is \x27__main__\x27 but not default value was provided to override"
    | some d => Except.ok (builder.import_statement d class_name)
  else Except.ok (builder.import_statement module_name class_name)

/-! ## Literal model blueprints -/

/-- `LiteralModelBlueprint`: original class name, sanitized identifier and the
accumulating code buffer. -/
structure LiteralModelBlueprint where
  class_name : String
  sanitized_class_name : String
  code_builder : String

/-- Blueprint construction; `__post_init__` derives the sanitized name and the
buffer starts empty. -/
def LiteralModelBlueprint.create (class_name : String) : LiteralModelBlueprint :=
  { class_name := class_name
    sanitized_class_name := sanitize_class_name class_name
    code_builder := "" }

/-! ## Field mapping (`ModelGenerator.generate_literal_model` and helpers) -/

/-- `ModelGenerator._try_get_mappable_reference_field`: first rule whose
`field_name` matches, if any. -/
def _try_get_mappable_reference_field (field_name : String)
    (mappable_references : Option (List MappableReferenceField)) :
    Option MappableReferenceField :=
  match mappable_references with
  | none => none
  | some refs => refs.find? (fun m => m.field_name == field_name)

/-- The class-name resolution loop of `generate_literal_model`: an explicit
name wins, else hints are popped in order and the first one present as a
record key supplies the name. -/
def resolveClassName (parsed_source : ParsedSource) :
    Option String → List String → Option String
  | some c, _ => some c
  | none, [] => none
  | none, hint :: rest =>
    match psLookup parsed_source hint with
    | some v => some v
    | none => resolveClassName parsed_source none rest

/-- In the source, `field_name not in mappable_fields` tests a `str` against a
list whose elements are the per-rule `parsed_source_keys` LISTS; Python
equality between a string and a list is always false, so the membership test
never holds. -/
def pyStrInListOfKeyLists (_field_name : String)
    (_mappable_fields : List (List String)) : Bool :=
  false

/-- One iteration of the `require_all_fields_mapped` pre-check loop of
`generate_literal_model` (source lines 550-563). -/
def requireAllCheckField (seed : SeedModel) (parsed_source : ParsedSource)
    (mappable_references : Option (List MappableReferenceField))
    (field_name : String) : Except String Unit :=
  (match mappable_references with
    | none => Except.ok ()
    | some refs =>
      let mappable_fields := refs.map (fun m => m.parsed_source_keys)
      if pyStrInListOfKeyLists field_name mappable_fields then Except.ok ()
      else Except.error ("Field " ++ field_name ++ " not found in mappable fields")) >>= fun _ =>
  (if psContains parsed_source field_name then Except.ok ()
   else Except.error ("Field " ++ field_name ++ " not found in source data")) >>= fun _ =>
  match ((match mappable_references with
          | none => []
          | some refs => refs : List MappableReferenceField)).find?
        (fun m => !(m.has_mappable_field seed)) with
  | some m => Except.error ("Mappable field " ++ m.field_name ++ " not found in seed model")
  | none => Except.ok ()

/-- The full `require_all_fields_mapped` pre-check, one iteration per seed
model field, failing at the first offending field. -/
def requireAllCheck (seed : SeedModel) (parsed_source : ParsedSource)
    (mappable_references : Option (List MappableReferenceField)) :
    List String → Except String Unit
  | [] => Except.ok ()
  | field_name :: rest =>
    requireAllCheckField seed parsed_source mappable_references field_name >>= fun _ =>
    requireAllCheck seed parsed_source mappable_references rest

/-- The per-field body of the emission loop of `generate_literal_model`
(source lines 572-591): a matching mapping rule takes priority (its result is
unindented, never quoted), else a raw record value is used (quoted when the
declared type name is `str`), else the field is omitted, or the loop raises
when `require_all_fields_mapped` is set. -/
def resolveFieldValue (parsed_source : ParsedSource)
    (mappable_references : Option (List MappableReferenceField))
    (field_name : String) (type_name : String)
    (require_all_fields_mapped : Bool) : Except String (Option String) :=
  match _try_get_mappable_reference_field field_name mappable_references with
  | some m =>
    (MappableReferenceField.call m parsed_source).map (fun param => some (unindent param))
  | none =>
    match psLookup parsed_source field_name with
    | some v =>
      Except.ok (some (if type_name == "str" then "\"" ++ v ++ "\"" else v))
    | none =>
      if require_all_fields_mapped then
        Except.error ("Field " ++ field_name ++ " could not be generated")
      else Except.ok none

/-- The emission loop of `generate_literal_model`: per seed model field (in
declaration order), resolve the value and append the indented field
assignment when one was produced. -/
def emitFields (builder : TemplateHelper) (parsed_source : ParsedSource)
    (mappable_references : Option (List MappableReferenceField))
    (require_all_fields_mapped : Bool) :
    List (String × String) → Except String String
  | [] => Except.ok ""
  | (field_name, type_name) :: rest =>
    resolveFieldValue parsed_source mappable_references field_name type_name
        require_all_fields_mapped >>= fun v? =>
    (emitFields builder parsed_source mappable_references require_all_fields_mapped
        rest).map (fun restStr =>
      match v? with
      | some param => builder.indent (builder.literal_field field_name param) 1 ++ restStr
      | none => restStr)

/-- `ModelGenerator.generate_literal_model`: resolve the class name, build the
blueprint, run the strict pre-check when requested, then emit the class
header and one assignment per resolvable seed model field. -/
def generate_literal_model (builder : TemplateHelper) (parsed_source : ParsedSource)
    (seed_model_type : SeedModel)
    (mappable_references : Option (List MappableReferenceField))
    (class_name? : Option String) (class_name_hints : Option (List String))
    (require_all_fields_mapped : Bool) : Except String LiteralModelBlueprint :=
  match resolveClassName parsed_source class_name? (class_name_hints.getD []) with
  | none => Except.error "No class name provided and hint was found in the source data"
  | some class_name =>
    let bp := LiteralModelBlueprint.create class_name
    let parent_model_fields := seed_model_type.model_fields
    (if require_all_fields_mapped then
        requireAllCheck seed_model_type parsed_source mappable_references
          (parent_model_fields.map Prod.fst)
      else Except.ok ()) >>= fun _ =>
    let header :=
      builder.indent
        (builder.class_header bp.sanitized_class_name (some seed_model_type.name)) 0
    (emitFields builder parsed_source mappable_references require_all_fields_mapped
        parent_model_fields).map (fun body =>
      { bp with code_builder := bp.code_builder ++ header ++ body })

/-! ## Enum-like aggregate class -/

/-- The enum-entry loop of `generate_enum_like_class`: one indented entry per
blueprint, in input order; the key derivation fails on an empty class name. -/
def enumEntries (builder : TemplateHelper) :
    List LiteralModelBlueprint → Except String String
  | [] => Except.ok ""
  | bp :: rest =>
    create_enum_key_from_class_name bp.class_name >>= fun key =>
    (enumEntries builder rest).map (fun restStr =>
      builder.indent (builder.model_enum_entry key bp.sanitized_class_name) 1 ++ restStr)

/-- `ModelGenerator.generate_enum_like_class`: class header, enum entries in
blueprint order, the subclass accessor, the discriminated-union type and the
optional abbreviation map. -/
def generate_enum_like_class (builder : TemplateHelper) (class_name : String)
    (discriminator : String) (seed_model_type : SeedModel ⊕ String)
    (literal_model_blueprints : List LiteralModelBlueprint)
    (render_abbreviation_map : Bool) : Except String String :=
  let seed_model_name :=
    match seed_model_type with
    | Sum.inl m => m.name
    | Sum.inr s => s
  (enumEntries builder literal_model_blueprints).map (fun entries =>
    builder.indent (builder.class_header class_name none) 0
      ++ entries
      ++ builder.indent (builder.type_all_from_subclasses seed_model_name) 1
      ++ builder.indent (builder.type_one_of seed_model_name discriminator) 1
      ++ (if render_abbreviation_map then builder.indent builder.abbreviation_map 1 else ""))

/-! ## Validators and formatters -/

/-- `CodeValidator.validate`: returns a validity flag and an optional error. -/
structure CodeValidator where
  validate : String → Bool × Option String

/-- `CodeFormatter.format`: a total text-to-text transformation. -/
structure CodeFormatter where
  format : String → String

/-- The validator loop of `ModelGenerator.generate`: run each validator in
order and raise the first reported error (or a generic message when the
failing validator supplies none). -/
def runValidators : List CodeValidator → String → Except String Unit
  | [], _ => Except.ok ()
  | v :: rest, code =>
    let r := v.validate code
    if r.1 then runValidators rest code
    else Except.error (r.2.getD "Generated code is not valid")

/-- The `if code_validators is not None` guard around the validator loop. -/
def runValidatorsOpt : Option (List CodeValidator) → String → Except String Unit
  | none, _ => Except.ok ()
  | some vs, code => runValidators vs code

/-- The formatter loop of `ModelGenerator.generate`: each formatter receives
the previous output. -/
def runFormattersOpt : Option (List CodeFormatter) → String → String
  | none, code => code
  | some fs, code => fs.foldl (fun c f => f.format c) code

/-! ## The generation pipeline (`ModelGenerator`) -/

/-- The configuration and state of a `ModelGenerator`: the constructor stores
the configuration, parses the source once (`_parsed_source`) and starts with
an empty `_literal_model_blueprints` list. -/
structure ModelGenerator where
  enum_like_class_name : String
  seed_model_type : SeedModel
  data_source_identifier : String
  discriminator : String
  render_abbreviation_map : Bool
  literal_class_name_hints : List String
  additional_imports : Option (List TypeOrRef)
  additional_preamble : Option String
  mappable_references : Option (List MappableReferenceField)
  default_module_name : String
  parsed_source : List ParsedSource
  literal_model_blueprints : List LiteralModelBlueprint

/-- First-occurrence deduplication, standing for the `set(...)` built in
`_generate_mappable_references` (Python set iteration order is unspecified;
the embedding fixes first-occurrence order, which no claim depends on). -/
def dedupFirst [BEq α] (seen : List α) : List α → List α
  | [] => []
  | x :: xs =>
    if seen.contains x then dedupFirst seen xs
    else x :: dedupFirst (x :: seen) xs

/-- `ModelGenerator._generate_mappable_references`: one import per distinct
referenced type of the mapping rules. -/
def _generate_mappable_references (builder : TemplateHelper) (g : ModelGenerator) :
    Except String String :=
  match g.mappable_references with
  | none => Except.ok ""
  | some refs =>
    go (dedupFirst [] (refs.map (fun m => m.typeof)))
where
  go : List TypeOrRef → Except String String
    | [] => Except.ok ""
    | t :: rest =>
      solve_import builder t (some g.default_module_name) >>= fun s =>
      (go rest).map (fun restStr => s ++ restStr)

/-- The blueprint loop of `ModelGenerator.generate` (source lines 395-403):
blueprints are appended to the pipeline state one by one, so the appends made
before a failing record survive the raised error. -/
def genLoop (builder : TemplateHelper) (g : ModelGenerator) :
    List ParsedSource → List LiteralModelBlueprint × Option String
  | [] => ([], none)
  | sub :: rest =>
    match generate_literal_model builder sub g.seed_model_type g.mappable_references
        none (some g.literal_class_name_hints) false with
    | Except.error e => ([], some e)
    | Except.ok bp =>
      let r := genLoop builder g rest
      (bp :: r.1, r.2)

/-- Threaded import rendering for the `additional_imports` comprehension of
`ModelGenerator.generate`. -/
def solveImports (builder : TemplateHelper) (default_module_name : Option String) :
    List TypeOrRef → Except String String
  | [] => Except.ok ""
  | t :: rest =>
    solve_import builder t default_module_name >>= fun s =>
    (solveImports builder default_module_name rest).map (fun restStr => s ++ restStr)

/-- The assembly tail of `ModelGenerator.generate` (source lines 405-436),
run on the state already holding the accumulated blueprints: join the
blueprint code, append the enum-like class, prepend header, imports and
preamble, then unindent and expand tabs. -/
def assembleRest (builder : TemplateHelper) (g : ModelGenerator) : Except String String :=
  let string_builder :=
    "\n" ++ joinSep "\n\n" (g.literal_model_blueprints.map
      (fun bp => bp.code_builder))
  (generate_enum_like_class builder g.enum_like_class_name g.discriminator
      (Sum.inl g.seed_model_type) g.literal_model_blueprints
      g.render_abbreviation_map) >>= fun enumCode =>
  let string_builder := string_builder ++ enumCode
  _generate_mappable_references builder g >>= fun mappableImports =>
  solve_import builder
      (TypeOrRef.typeDescr g.seed_model_type.module g.seed_model_type.name)
      (some g.default_module_name) >>= fun seedImport =>
  (solveImports builder (some g.default_module_name)
      (g.additional_imports.getD [])) >>= fun extraImports =>
  let generated_code :=
    builder.file_header (normalize_model_source_provenance g.data_source_identifier)
      ++ builder.import_statements
      ++ mappableImports
      ++ seedImport
      ++ extraImports
      ++ (g.additional_preamble.getD "")
      ++ string_builder
  Except.ok (replace_tabs_with_spaces (unindent generated_code))

/-- `ModelGenerator.generate`.  The blueprint loop mutates
`_literal_model_blueprints` (appends are kept even when a later record
fails), the body is assembled from the WHOLE accumulated list, validators run
in order with fail-fast semantics and formatters fold over the validated
text.  The returned pair is the mutated pipeline state plus the outcome;
`builder` stands for the class attribute `_BUILDER = TemplateHelper()`. -/
def ModelGenerator.generate (builder : TemplateHelper) (g : ModelGenerator)
    (code_validators : Option (List CodeValidator))
    (code_formatters : Option (List CodeFormatter)) :
    ModelGenerator × Except String String :=
  let r := genLoop builder g g.parsed_source
  let g' := { g with literal_model_blueprints := g.literal_model_blueprints ++ r.1 }
  match r.2 with
  | some e => (g', Except.error e)
  | none =>
    match assembleRest builder g' with
    | Except.error e => (g', Except.error e)
    | Except.ok code =>
      match runValidatorsOpt code_validators code with
      | Except.error e => (g', Except.error e)
      | Except.ok _ => (g', Except.ok (runFormattersOpt code_formatters code))

/-- `ModelGenerator._validate`: PascalCase class name and uniqueness of the
mapping-rule target field names (the `issubclass` check is a Python-typing
concern with no counterpart in the embedding). -/
def ModelGenerator.validateConfig (g : ModelGenerator) : Except String Unit :=
  (if is_pascal_case g.enum_like_class_name then Except.ok ()
   else Except.error "model_name must be in PascalCase") >>= fun _ =>
  match g.mappable_references with
  | none => Except.ok ()
  | some refs =>
    let fields_name := refs.map (fun m => m.field_name)
    if fields_name.length = (dedupFirst [] fields_name).length then Except.ok ()
    else Except.error "field_name must be unique across all MappableReferenceField objects"

/-- The `ModelGenerator` constructor: applies the hint default, runs the
parser once into `_parsed_source`, starts with no blueprints and validates
the configuration. -/
def ModelGenerator.construct (class_name : String) (seed_model_type : SeedModel)
    (data_source_identifier : String) (parser : Unit → List ParsedSource)
    (discriminator : String) (literal_class_name_hints : Option (List String))
    (preamble : Option String) (additional_imports : Option (List TypeOrRef))
    (render_abbreviation_map : Bool)
    (mappable_references : Option (List MappableReferenceField))
    (default_module_name : String) : Except String ModelGenerator :=
  let g : ModelGenerator :=
    { enum_like_class_name := class_name
      seed_model_type := seed_model_type
      data_source_identifier := data_source_identifier
      discriminator := discriminator
      render_abbreviation_map := render_abbreviation_map
      literal_class_name_hints := literal_class_name_hints.getD ["abbreviation", "name"]
      additional_imports := additional_imports
      additional_preamble := preamble
      mappable_references := mappable_references
      default_module_name := default_module_name
      parsed_source := parser ()
      literal_model_blueprints := [] }
  (ModelGenerator.validateConfig g).map (fun _ => g)

/-! ## The context registry (`GeneratorContext`) -/

/-- A pipeline registered in the context together with its optional target
path. -/
structure WrappedModelGenerator where
  model_generator : ModelGenerator
  target_path : Option String

/-- The observable state of the singleton instance: the `_initialized` flag
plus the three managed collections. -/
structure GeneratorContextState where
  initialized : Bool
  generators : List WrappedModelGenerator
  code_validators : List CodeValidator
  code_formatters : List CodeFormatter

/-- The class-level state of `GeneratorContext`: `_self` holds the singleton
instance once one exists. -/
structure GeneratorContextGlobal where
  _self : Option GeneratorContextState

/-- The blank object `__new__` allocates before `__init__` runs. -/
def GeneratorContext.blank : GeneratorContextState :=
  { initialized := false, generators := [], code_validators := [], code_formatters := [] }

/-- Constructing `GeneratorContext(...)`: `__new__` reuses `cls._self` when it
exists (allocating a blank object otherwise) and `__init__` only fills the
instance when `_initialized` is false, so the arguments of a re-acquisition
are discarded.  Returns the new class-level state and the instance handed to
the caller. -/
def GeneratorContext.construct (g : GeneratorContextGlobal)
    (code_validators : Option (List CodeValidator))
    (code_formatters : Option (List CodeFormatter)) :
    GeneratorContextGlobal × GeneratorContextState :=
  let inst := g._self.getD GeneratorContext.blank
  let inst' :=
    if inst.initialized then inst
    else
      { initialized := true
        generators := []
        code_validators := code_validators.getD []
        code_formatters := code_formatters.getD [] }
  ({ _self := some inst' }, inst')

/-- `GeneratorContext.__exit__`: clears the generator list and the
instance-level `_initialized` flag.  The assignment `self._self = None` in
the source creates an instance attribute that shadows the class attribute,
so the class-level `_self` keeps pointing at the same object. -/
def GeneratorContext.scopeExit (g : GeneratorContextGlobal) : GeneratorContextGlobal :=
  { _self := g._self.map (fun s => { s with generators := [], initialized := false }) }

/-! ## Concrete fixtures used by the claim theorems -/

/-- The seed model of the repository test suite: two string fields. -/
def seedMock : SeedModel :=
  { name := "MyMockType"
    module := "tests"
    model_fields := [("name", "str"), ("field", "str")]
    attrs := ["name", "field"] }

/-- A forward reference used as the mapped type of the concrete rules. -/
def refTypeC : TypeOrRef :=
  TypeOrRef.forwardRef { module_name := "my_refs", class_name := "RefType" }

/-- A rule with two explicit handlers over distinct keys `a` and `b` and the
two-position pattern. -/
def ruleC1 : MappableReferenceField :=
  MappableReferenceField.create refTypeC
    [FormatPatternItem.pos 0, FormatPatternItem.lit "-", FormatPatternItem.pos 1]
    "f"
    (some [HandlerInput.handler { field := "a" },
           HandlerInput.handler { field := "b" }])

/-- A rule targeting the schema field `name` over the source key `name`. -/
def ruleC2 : MappableReferenceField :=
  MappableReferenceField.create refTypeC [FormatPatternItem.pos 0] "name"
    (some [HandlerInput.handler { field := "name" }])

/-- A rule for field `a` over source key `a` with the doubling pattern. -/
def ruleAB : MappableReferenceField :=
  MappableReferenceField.create refTypeC
    [FormatPatternItem.pos 0, FormatPatternItem.lit "-", FormatPatternItem.pos 0]
    "a"
    (some [HandlerInput.str "a"])

/-- A validator that always accepts. -/
def okValidator : CodeValidator := { validate := fun _ => (true, none) }

/-- A validator that always rejects with a synthetic error payload. -/
def failValidator : CodeValidator := { validate := fun _ => (false, some "synthetic failure") }

/-- A formatter appending a marker character. -/
def exclaimFormatter : CodeFormatter := { format := fun s => s ++ "!" }

/-- A backend instance with one-character renderings, keeping the kernel
evaluation of whole-pipeline runs small; the pipeline theorems hold for every
backend, so the witnesses may use this one. -/
def tinyHelper : TemplateHelper :=
  { import_statement := fun m c => "i:" ++ m ++ ":" ++ c ++ "\n"
    class_header := fun name parent =>
      "c:" ++ name ++ (match parent with
        | some p => ":" ++ p
        | none => "")
    literal_field := fun n v => n ++ "=" ++ v
    model_enum_entry := fun k v => k ++ "=" ++ v
    type_all_from_subclasses := fun p => "a:" ++ p
    type_one_of := fun p d => "o:" ++ p ++ ":" ++ d
    abbreviation_map := "m"
    file_header := fun prov => "h:" ++ prov ++ "\n"
    import_statements := "s\n"
    indent := indent_block }

/-- A one-field seed model with short names. -/
def seedTiny : SeedModel :=
  { name := "M", module := "t", model_fields := [("n", "str")], attrs := ["n"] }

/-- A concrete pipeline over two one-field records. -/
def cgPipe : ModelGenerator :=
  { enum_like_class_name := "E"
    seed_model_type := seedTiny
    data_source_identifier := "s"
    discriminator := "n"
    render_abbreviation_map := false
    literal_class_name_hints := ["n"]
    additional_imports := none
    additional_preamble := none
    mappable_references := none
    default_module_name := "d"
    parsed_source := [[("n", "f")], [("n", "g")]]
    literal_model_blueprints := [] }

/-- First invocation of `generate` on the fresh pipeline. -/
def cgPipeBase : ModelGenerator × Except String String :=
  ModelGenerator.generate tinyHelper cgPipe none none

/-- The assembled text of the first invocation. -/
def cgPipeCode : String := (cgPipeBase.2).toOption.getD ""

/-- Second invocation of `generate` on the state left by the first one. -/
def cgPipeRun2 : ModelGenerator × Except String String :=
  ModelGenerator.generate tinyHelper cgPipeBase.1 none none

/-- Blueprints named foo, bar, baz in input order. -/
def bpsFooBarBaz : List LiteralModelBlueprint :=
  [LiteralModelBlueprint.create "foo",
   LiteralModelBlueprint.create "bar",
   LiteralModelBlueprint.create "baz"]


/-! ## Shared lemmas -/

/-- Handler-typed inputs to the normalization are kept in full and in order. -/
lemma normalize_go_handlers (hs : List ParsedSourceKeyHandler) :
    _normalize_parsed_source_keys.go (hs.map HandlerInput.handler) = hs := by
  induction hs with
  | nil => rfl
  | cons h t ih => simp [_normalize_parsed_source_keys.go, ih]

/-- On non-empty input the enum key derivation succeeds with `enumKeyCore`. -/
lemma create_enum_key_ok (s : String) (h : (s == "") = false) :
    create_enum_key_from_class_name s = Except.ok (enumKeyCore s) := by
  simp [create_enum_key_from_class_name, h]

/-! ## Claim theorems -/

/-- Claim C1 (code_bug evidence): invoking a mapping rule with two handlers
over distinct keys `a` and `b` on the record `a = x, b = y` substitutes the
value of the LAST key for BOTH positions of the pattern (result `y-y`),
instead of binding each position to its own handler key as the claim states
(which would give `x-y`). -/
theorem C1_call_substitutes_last_key_value :
    MappableReferenceField.call ruleC1 [("a", "x"), ("b", "y")] = Except.ok "y-y"
  ∧ MappableReferenceField.call ruleC1 [("a", "x"), ("b", "y")] ≠ Except.ok "x-y" := by
  refine ⟨rfl, fun h => ?_⟩
  rw [(rfl : MappableReferenceField.call ruleC1 [("a", "x"), ("b", "y")] = Except.ok "y-y")] at h
  exact absurd (Except.ok.inj h) (by decide)

/-- Claim C2 (code_bug evidence): on a record and rule set that fully cover
the seed model (field `name` is covered both by a matching rule and by a raw
key, field `field` by a raw key, and the rule targets an existing schema
field), strict generation nevertheless fails at the first schema field: the
pre-check tests the field name for membership in a list of per-rule
source-key lists, which never holds. -/
theorem C2_strict_check_rejects_covered_field :
    generate_literal_model specHelper [("name", "foo"), ("field", "foo_field")] seedMock
        (some [ruleC2]) none (some ["abbreviation", "name"]) true
      = Except.error "Field name not found in mappable fields"
  ∧ _try_get_mappable_reference_field "name" (some [ruleC2]) = some ruleC2
  ∧ psContains [("name", "foo"), ("field", "foo_field")] "name" = true
  ∧ psContains [("name", "foo"), ("field", "foo_field")] "field" = true
  ∧ (seedMock.model_fields.map Prod.fst).contains ruleC2.field_name = true := by
  refine ⟨rfl, rfl, rfl, rfl, rfl⟩

/-- Claim C3: normalization of a plain string list of length at least two
stops after the first entry, keeping only a transform-free handler for the
first string; a list given as `ParsedSourceKeyHandler` records is retained in
full and in order. -/
theorem C3_normalization_early_exit (s1 s2 : String) (rest : List String)
    (hs : List ParsedSourceKeyHandler) :
    _normalize_parsed_source_keys (some ((s1 :: s2 :: rest).map HandlerInput.str))
      = [{ field := s1 }]
  ∧ _normalize_parsed_source_keys (some (hs.map HandlerInput.handler)) = hs := by
  exact ⟨rfl, normalize_go_handlers hs⟩

/-- Claim C5: when a mapping rule matches the field name, the per-field
resolution returns the (unindented) rule result even when the field name is
also present as a raw record key; the raw value is never consulted. -/
theorem C5_rule_priority_over_raw_lookup (parsed_source : ParsedSource)
    (mrefs : List MappableReferenceField) (field_name type_name : String)
    (require_all : Bool) (m : MappableReferenceField) (s : String)
    (hfind : _try_get_mappable_reference_field field_name (some mrefs) = some m)
    (hcall : MappableReferenceField.call m parsed_source = Except.ok s)
    (_hraw : psContains parsed_source field_name = true) :
    resolveFieldValue parsed_source (some mrefs) field_name type_name require_all
      = Except.ok (some (unindent s)) := by
  simp [resolveFieldValue, hfind, hcall, Except.map]

/-- Witness for C5: the rule for `a` produces `raw-raw`, not the quoted raw
value `"raw"` that a raw lookup of the `str`-typed field would yield. -/
theorem C5_rule_priority_over_raw_lookup_witness :
    resolveFieldValue [("a", "raw")] (some [ruleAB]) "a" "str" false
      = Except.ok (some "raw-raw") :=
  C5_rule_priority_over_raw_lookup [("a", "raw")] [ruleAB] "a" "str" false ruleAB
    "raw-raw" rfl rfl rfl

/-- Claim C6: a raw-lookup-resolved field value is quoted exactly when the
declared type name is `str` and emitted verbatim otherwise; a rule-produced
value is never auto-quoted; and for the schema a-str, b-int over the record
a = x, b = 5 with no rules the emitted assignments are `a = "x"` then
`b = 5`, in schema field order. -/
theorem C6_quoting_and_field_order :
    (∀ (parsed_source : ParsedSource) (mrefs : Option (List MappableReferenceField))
        (field_name type_name : String) (require_all : Bool) (v : String),
        _try_get_mappable_reference_field field_name mrefs = none →
        psLookup parsed_source field_name = some v →
        resolveFieldValue parsed_source mrefs field_name type_name require_all
          = Except.ok (some (if type_name == "str" then "\"" ++ v ++ "\"" else v)))
  ∧ (∀ (parsed_source : ParsedSource) (mrefs : Option (List MappableReferenceField))
        (field_name type_name : String) (require_all : Bool)
        (m : MappableReferenceField) (s : String),
        _try_get_mappable_reference_field field_name mrefs = some m →
        MappableReferenceField.call m parsed_source = Except.ok s →
        resolveFieldValue parsed_source mrefs field_name type_name require_all
          = Except.ok (some (unindent s)))
  ∧ emitFields specHelper [("a", "x"), ("b", "5")] none false [("a", "str"), ("b", "int")]
      = Except.ok ("\ta = \"x\"\n\tb = 5\n") := by
  refine ⟨?_, ?_, rfl⟩
  · intro parsed_source mrefs field_name type_name require_all v hnone hlook
    simp [resolveFieldValue, hnone, hlook]
  · intro parsed_source mrefs field_name type_name require_all m s hfind hcall
    simp [resolveFieldValue, hfind, hcall, Except.map]

/-- Witness for C6: a raw `int`-typed field is emitted verbatim and a
rule-produced value is not quoted. -/
theorem C6_quoting_and_field_order_witness :
    resolveFieldValue [("b", "5")] none "b" "int" false = Except.ok (some "5")
  ∧ resolveFieldValue [("a", "raw")] (some [ruleAB]) "a" "int" false
      = Except.ok (some "raw-raw") :=
  ⟨C6_quoting_and_field_order.1 [("b", "5")] none "b" "int" false "5" rfl rfl,
   C6_quoting_and_field_order.2.1 [("a", "raw")] (some [ruleAB]) "a" "int" false
     ruleAB "raw-raw" rfl rfl⟩

/-- Claim C7: `solve_import` returns the empty string for the builtin
namespace, fails exactly when the module is the entry script and no default
module name was supplied (it substitutes the default otherwise), and renders
the import for every other module. -/
theorem C7_solve_import_cases (builder : TemplateHelper) (typeof : TypeOrRef)
    (default_module_name : Option String) :
    (typeof.moduleAndClass.1 = "builtins" →
        solve_import builder typeof default_module_name = Except.ok "")
  ∧ (typeof.moduleAndClass.1 = "__main__" →
        (default_module_name = none →
          solve_import builder typeof default_module_name
            = Except.error "Module name is \x27__main__\x27 but not default value was provided to override")
      ∧ (∀ d, default_module_name = some d →
          solve_import builder typeof default_module_name
            = Except.ok (builder.import_statement d typeof.moduleAndClass.2)))
  ∧ (typeof.moduleAndClass.1 ≠ "builtins" → typeof.moduleAndClass.1 ≠ "__main__" →
        solve_import builder typeof default_module_name
          = Except.ok (builder.import_statement typeof.moduleAndClass.1
              typeof.moduleAndClass.2))
  ∧ ((∃ s, solve_import builder typeof default_module_name = Except.ok s)
      ∨ (typeof.moduleAndClass.1 = "__main__" ∧ default_module_name = none)) := by
  unfold solve_import
  refine ⟨fun hb => by simp [hb], fun hm => ⟨fun hd => ?_, fun d hd => ?_⟩, fun hb hm => ?_, ?_⟩
  · have : typeof.moduleAndClass.1 ≠ "builtins" := by rw [hm]; decide
    simp [this, hm, hd]
  · have : typeof.moduleAndClass.1 ≠ "builtins" := by rw [hm]; decide
    simp [this, hm, hd]
  · simp [hb, hm]
  · by_cases hb : typeof.moduleAndClass.1 = "builtins"
    · exact Or.inl ⟨"", by simp [hb]⟩
    · by_cases hm : typeof.moduleAndClass.1 = "__main__"
      · cases hd : default_module_name with
        | none => exact Or.inr ⟨hm, rfl⟩
        | some d =>
          exact Or.inl ⟨builder.import_statement d typeof.moduleAndClass.2,
            by simp [hb, hm]⟩
      · exact Or.inl ⟨builder.import_statement typeof.moduleAndClass.1
          typeof.moduleAndClass.2, by simp [hb, hm]⟩

/-- Witness for C7: the builtin, entry-script (with and without a default)
and ordinary module cases at concrete inputs. -/
theorem C7_solve_import_cases_witness :
    solve_import specHelper (TypeOrRef.typeDescr "builtins" "int") none = Except.ok ""
  ∧ solve_import specHelper
        (TypeOrRef.forwardRef { module_name := "__main__", class_name := "MyClass" }) none
      = Except.error "Module name is \x27__main__\x27 but not default value was provided to override"
  ∧ solve_import specHelper (TypeOrRef.typeDescr "__main__" "LocalClass")
        (some "tests.test_model_generator")
      = Except.ok (specHelper.import_statement "tests.test_model_generator" "LocalClass")
  ∧ solve_import specHelper
        (TypeOrRef.forwardRef { module_name := "MyModule", class_name := "MyClass" }) none
      = Except.ok (specHelper.import_statement "MyModule" "MyClass") :=
  ⟨(C7_solve_import_cases specHelper (TypeOrRef.typeDescr "builtins" "int") none).1 rfl,
   ((C7_solve_import_cases specHelper
       (TypeOrRef.forwardRef { module_name := "__main__", class_name := "MyClass" })
       none).2.1 rfl).1 rfl,
   ((C7_solve_import_cases specHelper (TypeOrRef.typeDescr "__main__" "LocalClass")
       (some "tests.test_model_generator")).2.1 rfl).2 "tests.test_model_generator" rfl,
   (C7_solve_import_cases specHelper
       (TypeOrRef.forwardRef { module_name := "MyModule", class_name := "MyClass" })
       none).2.2.1 (by decide) (by decide)⟩

/-- Claim C10: constructing `GeneratorContext` again while an initialized
singleton exists returns the very same instance with generators, validators
and formatters untouched, silently discarding the constructor arguments;
after a scope exit the next construction re-initializes from the new
arguments. -/
theorem C10_singleton_reacquisition (s : GeneratorContextState)
    (vs : Option (List CodeValidator)) (fs : Option (List CodeFormatter))
    (h : s.initialized = true) :
    GeneratorContext.construct { _self := some s } vs fs = ({ _self := some s }, s)
  ∧ GeneratorContext.construct (GeneratorContext.scopeExit { _self := some s }) vs fs
      = ({ _self := some (GeneratorContextState.mk true [] (vs.getD []) (fs.getD [])) },
          GeneratorContextState.mk true [] (vs.getD []) (fs.getD [])) := by
  constructor
  · simp [GeneratorContext.construct, h]
  · simp [GeneratorContext.construct, GeneratorContext.scopeExit]

/-- An initialized context instance holding one validator. -/
def ctxS0 : GeneratorContextState :=
  { initialized := true
    generators := []
    code_validators := [okValidator]
    code_formatters := [] }

/-- Witness for C10: a context initialized with one validator ignores the
different lists passed at re-acquisition. -/
theorem C10_singleton_reacquisition_witness :
    GeneratorContext.construct { _self := some ctxS0 }
        (some [failValidator]) (some [exclaimFormatter])
      = ({ _self := some ctxS0 }, ctxS0) :=
  (C10_singleton_reacquisition ctxS0
    (some [failValidator]) (some [exclaimFormatter]) rfl).1

/-! ## Lemmas about the pipeline loop and assembly -/

/-- Concatenation of the rendered pieces of a list. -/
def concatMapStr (f : α → String) : List α → String
  | [] => ""
  | x :: xs => f x ++ concatMapStr f xs

/-- A blueprint loop that finished without an error produced exactly one
blueprint per record. -/
lemma genLoop_length (builder : TemplateHelper) (g : ModelGenerator) :
    ∀ l : List ParsedSource, (genLoop builder g l).2 = none →
      (genLoop builder g l).1.length = l.length := by
  intro l
  induction l with
  | nil => intro _; rfl
  | cons sub rest ih =>
    intro h
    simp only [genLoop] at h ⊢
    cases hgen : generate_literal_model builder sub g.seed_model_type g.mappable_references
        none (some g.literal_class_name_hints) false with
    | error e => rw [hgen] at h; simp at h
    | ok bp =>
      rw [hgen] at h
      simp at h ⊢
      exact ih h

/-- The pipeline state returned by `generate` always carries the blueprints
appended by the loop, whatever the outcome. -/
lemma generate_fst (builder : TemplateHelper) (g : ModelGenerator)
    (vs : Option (List CodeValidator)) (fs : Option (List CodeFormatter)) :
    (ModelGenerator.generate builder g vs fs).1
      = { g with literal_model_blueprints :=
            g.literal_model_blueprints ++ (genLoop builder g g.parsed_source).1 } := by
  simp only [ModelGenerator.generate]
  repeat' split
  all_goals rfl

/-- Inversion of a successful bare run (no validators, no formatters): the
loop finished, the returned state is the appended one and the assembly
produced the returned text. -/
lemma generate_none_none_ok (builder : TemplateHelper) (g g0 : ModelGenerator)
    (code : String)
    (hbase : ModelGenerator.generate builder g none none = (g0, Except.ok code)) :
    (genLoop builder g g.parsed_source).2 = none
  ∧ g0 = { g with literal_model_blueprints :=
        g.literal_model_blueprints ++ (genLoop builder g g.parsed_source).1 }
  ∧ assembleRest builder
        { g with literal_model_blueprints :=
            g.literal_model_blueprints ++ (genLoop builder g g.parsed_source).1 }
      = Except.ok code := by
  simp only [ModelGenerator.generate] at hbase
  cases h2 : (genLoop builder g g.parsed_source).2 with
  | some e => rw [h2] at hbase; simp at hbase
  | none =>
    rw [h2] at hbase
    cases h3 : assembleRest builder
        { g with literal_model_blueprints :=
            g.literal_model_blueprints ++ (genLoop builder g g.parsed_source).1 } with
    | error e => rw [h3] at hbase; simp at hbase
    | ok c =>
      rw [h3] at hbase
      simp [runValidatorsOpt, runFormattersOpt] at hbase
      obtain ⟨hg, hc⟩ := hbase
      exact ⟨rfl, hg.symm, by rw [hc]⟩

/-- A run whose loop and assembly are known reduces to the validator match
and the formatter fold. -/
lemma generate_unfold_ok (builder : TemplateHelper) (g : ModelGenerator)
    (vs : Option (List CodeValidator)) (fs : Option (List CodeFormatter)) (code : String)
    (h1 : (genLoop builder g g.parsed_source).2 = none)
    (h3 : assembleRest builder
        { g with literal_model_blueprints :=
            g.literal_model_blueprints ++ (genLoop builder g g.parsed_source).1 }
      = Except.ok code) :
    ModelGenerator.generate builder g vs fs
      = ({ g with literal_model_blueprints :=
             g.literal_model_blueprints ++ (genLoop builder g g.parsed_source).1 },
         match runValidatorsOpt vs code with
         | Except.error e => Except.error e
         | Except.ok _ => Except.ok (runFormattersOpt fs code)) := by
  simp only [ModelGenerator.generate, h1, h3]
  cases hv : runValidatorsOpt vs code <;> simp [hv]

/-- A run that returned text had an error-free blueprint loop. -/
lemma generate_ok_genLoop (builder : TemplateHelper) (g g' : ModelGenerator)
    (vs : Option (List CodeValidator)) (fs : Option (List CodeFormatter)) (code : String)
    (h : ModelGenerator.generate builder g vs fs = (g', Except.ok code)) :
    (genLoop builder g g.parsed_source).2 = none := by
  simp only [ModelGenerator.generate] at h
  cases h2 : (genLoop builder g g.parsed_source).2 with
  | none => rfl
  | some e => rw [h2] at h; simp at h

/-- Every validator list passing in order yields success. -/
lemma runValidators_all_pass (vs : List CodeValidator) (code : String)
    (hpass : ∀ w ∈ vs, (w.validate code).1 = true) :
    runValidators vs code = Except.ok () := by
  induction vs with
  | nil => rfl
  | cons w ws ih =>
    have hw := hpass w (List.mem_cons_self w ws)
    simp [runValidators, hw]
    exact ih (fun x hx => hpass x (List.mem_cons_of_mem w hx))

/-- The first failing validator determines the raised error. -/
lemma runValidators_append_fail (vs1 : List CodeValidator) (v : CodeValidator)
    (vs2 : List CodeValidator) (code : String)
    (hpass : ∀ w ∈ vs1, (w.validate code).1 = true)
    (hfail : (v.validate code).1 = false) :
    runValidators (vs1 ++ v :: vs2) code
      = Except.error ((v.validate code).2.getD "Generated code is not valid") := by
  induction vs1 with
  | nil => simp [runValidators, hfail]
  | cons w ws ih =>
    have hw := hpass w (List.mem_cons_self w ws)
    simp [runValidators, hw]
    exact ih (fun x hx => hpass x (List.mem_cons_of_mem w hx))

/-- The enum-entry loop on blueprints with non-empty names renders one entry
per blueprint, concatenated in input order. -/
lemma enumEntries_join (builder : TemplateHelper) (bps : List LiteralModelBlueprint)
    (h : ∀ bp ∈ bps, (bp.class_name == "") = false) :
    enumEntries builder bps
      = Except.ok (concatMapStr (fun bp =>
          builder.indent (builder.model_enum_entry (enumKeyCore bp.class_name)
            bp.sanitized_class_name) 1) bps) := by
  induction bps with
  | nil => rfl
  | cons bp rest ih =>
    have hbp := h bp (List.mem_cons_self bp rest)
    simp [enumEntries, create_enum_key_ok bp.class_name hbp,
      ih (fun x hx => h x (List.mem_cons_of_mem bp hx)), concatMapStr, Except.map]
    rfl

set_option maxRecDepth 100000

/-- Claim C4 (counterexample): on the concrete two-record pipeline, a second
invocation of `generate` assembles FOUR blueprints into the output body (the
blueprint list is never reset), while the parser produced two records — the
claimed one-blueprint-per-record length fails for repeated invocations. -/
theorem C4_second_invocation_counterexample :
    cgPipe.parsed_source.length = 2
  ∧ (cgPipeRun2.2).toOption.isSome = true
  ∧ (cgPipeRun2.1).literal_model_blueprints.length = 4 :=
  ⟨rfl, rfl, rfl⟩

/-- Claim C4 (amended): every successful `generate` invocation appends exactly
one blueprint per parsed record to the accumulated list it assembles, so the
list has record-count length on the first invocation of a fresh pipeline and
grows by that count on every further invocation. -/
theorem C4_blueprints_accumulate_per_record (builder : TemplateHelper)
    (g g' : ModelGenerator) (vs : Option (List CodeValidator))
    (fs : Option (List CodeFormatter)) (code : String)
    (hok : ModelGenerator.generate builder g vs fs = (g', Except.ok code)) :
    g'.literal_model_blueprints.length
      = g.literal_model_blueprints.length + g.parsed_source.length := by
  have h1 : g' = (ModelGenerator.generate builder g vs fs).1 := by rw [hok]
  have h3 := generate_ok_genLoop builder g g' vs fs code hok
  rw [h1, generate_fst builder g vs fs]
  simp [genLoop_length builder g g.parsed_source h3]

/-- Witness for the amended C4: the first invocation on the fresh two-record
pipeline appends two blueprints. -/
theorem C4_blueprints_accumulate_per_record_witness :
    (cgPipeBase.1).literal_model_blueprints.length
      = cgPipe.literal_model_blueprints.length + cgPipe.parsed_source.length :=
  C4_blueprints_accumulate_per_record tinyHelper cgPipe cgPipeBase.1 none none
    cgPipeCode rfl

/-- Claim C8: relative to the text a bare run assembles, a run with validator
list V and formatter list F either (all validators passing) returns the fold
of the formatters over that text in configured order, or (at the first
validator reporting invalid) raises that validator's error — regardless of
the validators behind it and of every formatter, with no partial text. -/
theorem C8_validator_formatter_pipeline (builder : TemplateHelper)
    (g g0 : ModelGenerator) (code : String)
    (hbase : ModelGenerator.generate builder g none none = (g0, Except.ok code))
    (V : List CodeValidator) (F : List CodeFormatter) :
    (runValidators V code = Except.ok () →
        ModelGenerator.generate builder g (some V) (some F)
          = (g0, Except.ok (F.foldl (fun c f => f.format c) code)))
  ∧ (∀ vs1 v vs2, V = vs1 ++ v :: vs2 →
        (∀ w ∈ vs1, (w.validate code).1 = true) →
        (v.validate code).1 = false →
        ModelGenerator.generate builder g (some V) (some F)
          = (g0, Except.error ((v.validate code).2.getD "Generated code is not valid"))) := by
  obtain ⟨h1, hg0, h3⟩ := generate_none_none_ok builder g g0 code hbase
  subst hg0
  constructor
  · intro hv
    rw [generate_unfold_ok builder g (some (V)) (some F) code h1 h3]
    simp [runValidatorsOpt, hv, runFormattersOpt]
  · intro vs1 v vs2 hV hpass hfail
    rw [generate_unfold_ok builder g (some V) (some F) code h1 h3]
    rw [hV]
    simp [runValidatorsOpt, runValidators_append_fail vs1 v vs2 code hpass hfail]

/-- Witness for C8: on the concrete pipeline an accepting validator lets the
formatter output through, and a rejecting validator propagates its error with
the formatter never applied. -/
theorem C8_validator_formatter_pipeline_witness :
    ModelGenerator.generate tinyHelper cgPipe (some [okValidator]) (some [exclaimFormatter])
      = (cgPipeBase.1,
         Except.ok ([exclaimFormatter].foldl (fun c f => f.format c) cgPipeCode))
  ∧ ModelGenerator.generate tinyHelper cgPipe (some [failValidator]) (some [exclaimFormatter])
      = (cgPipeBase.1,
         Except.error ((failValidator.validate cgPipeCode).2.getD
           "Generated code is not valid")) := by
  have hbase : ModelGenerator.generate tinyHelper cgPipe none none
      = (cgPipeBase.1, Except.ok cgPipeCode) := rfl
  refine ⟨(C8_validator_formatter_pipeline tinyHelper cgPipe cgPipeBase.1 cgPipeCode hbase
      [okValidator] [exclaimFormatter]).1 rfl,
    (C8_validator_formatter_pipeline tinyHelper cgPipe cgPipeBase.1 cgPipeCode hbase
      [failValidator] [exclaimFormatter]).2 [] failValidator [] rfl ?_ rfl⟩
  intro w hw
  simp at hw

/-- Claim C9: the generated aggregate consists of the class header, then one
enum entry per blueprint in input order, in which the key is the enum-key
derivation applied to the original class name and the value references the
sanitized identifier, followed by the accessors; in addition the enum-key
derivation succeeds with `enumKeyCore` on every non-empty name. -/
theorem C9_enum_entries_in_input_order (builder : TemplateHelper)
    (class_name discriminator seed_name : String)
    (bps : List LiteralModelBlueprint) (ram : Bool)
    (h : ∀ bp ∈ bps, (bp.class_name == "") = false) :
    generate_enum_like_class builder class_name discriminator (Sum.inr seed_name) bps ram
      = Except.ok (builder.indent (builder.class_header class_name none) 0
          ++ concatMapStr (fun bp =>
              builder.indent (builder.model_enum_entry (enumKeyCore bp.class_name)
                bp.sanitized_class_name) 1) bps
          ++ builder.indent (builder.type_all_from_subclasses seed_name) 1
          ++ builder.indent (builder.type_one_of seed_name discriminator) 1
          ++ (if ram then builder.indent builder.abbreviation_map 1 else ""))
  ∧ (∀ s : String, (s == "") = false →
      create_enum_key_from_class_name s = Except.ok (enumKeyCore s)) := by
  constructor
  · simp [generate_enum_like_class, enumEntries_join builder bps h, Except.map]
  · exact create_enum_key_ok

/-- Witness for C9: blueprints foo, bar, baz yield entries keyed FOO, BAR,
BAZ in input order referencing the sanitized names. -/
theorem C9_enum_entries_in_input_order_witness :
    generate_enum_like_class specHelper "MyEnum" "name" (Sum.inr "MyMockType")
        bpsFooBarBaz true
      = Except.ok (specHelper.indent (specHelper.class_header "MyEnum" none) 0
          ++ concatMapStr (fun bp =>
              specHelper.indent (specHelper.model_enum_entry (enumKeyCore bp.class_name)
                bp.sanitized_class_name) 1) bpsFooBarBaz
          ++ specHelper.indent (specHelper.type_all_from_subclasses "MyMockType") 1
          ++ specHelper.indent (specHelper.type_one_of "MyMockType" "name") 1
          ++ specHelper.indent specHelper.abbreviation_map 1) :=
  (C9_enum_entries_in_input_order specHelper "MyEnum" "name" "MyMockType"
    bpsFooBarBaz true (by decide)).1
